import Mathlib

/-
Verification of the cross-exchange arbitrage engine (ArbitrageBot.js and its
scan-and-return variant).  The JavaScript numbers handled by decimal.js are
modelled as exact rationals; JavaScript objects keyed by strings are modelled
as association lists; the venue connectors (network I/O) are modelled as
explicit inputs: the order-book store content at scan time, and the order
results the connectors report at execution time.
-/

namespace ArbitrageBot

/-- A single order-book level: { price, quantity }. -/
structure PriceLevel where
  price : ℚ
  quantity : ℚ
  deriving DecidableEq

/-- An order book as stored by updateOrderbook: bids, asks and the stamp
Date.now() recorded at update time (millisecond clock, modelled as ℤ). -/
structure OrderBook where
  bids : List PriceLevel
  asks : List PriceLevel
  timestamp : ℤ
  deriving DecidableEq

/-- The per-pair map venue name to order book: this.orderbooks[pair]. -/
abbrev Books := List (String × OrderBook)

/-- The whole store: this.orderbooks, keyed by trading pair. -/
abbrev OrderBookStore := List (String × Books)

/-- Key access on a JavaScript object modelled as an association list:
obj[key] is the first binding of the key, absence is none. -/
def lookupKey {β : Type} (k : String) : List (String × β) → Option β
  | [] => none
  | (k', v) :: rest => if k = k' then some v else lookupKey k rest

/-- The price type argument of getBestPrice ("bid" or "ask"). -/
inductive PriceType where
  | bid
  | ask
  deriving DecidableEq

/-- The JavaScript coercion in getBestPrice: bids[0]?.price || null maps an
absent level to null and a price of 0 to null (0 is falsy). -/
def priceOrNull (x : Option ℚ) : Option ℚ :=
  match x with
  | none => none
  | some v => if v = 0 then none else some v

/-- getBestPrice(pair, exchangeName, type): looks the pair and venue up in the
store and returns bids[0]?.price || null, resp. asks[0]?.price || null. -/
def getBestPrice (orderbooks : OrderBookStore) (pair exch : String)
    (ty : PriceType) : Option ℚ :=
  match lookupKey pair orderbooks with
  | none => none
  | some books =>
    match lookupKey exch books with
    | none => none
    | some ob =>
      match ty with
      | PriceType.bid => priceOrNull (ob.bids.head?.map PriceLevel.price)
      | PriceType.ask => priceOrNull (ob.asks.head?.map PriceLevel.price)

/-- calculateSpread(sellPrice, buyPrice): returns -100 when either price is
null, zero or negative (the JavaScript guard !sellPrice || !buyPrice ||
sellPrice <= 0 || buyPrice <= 0), otherwise deducts the 0.1% fee from the
sell side, adds it to the buy side and returns
((sellAfterFee / buyAfterFee) - 1) * 100, in exact rational arithmetic. -/
def calculateSpread (sellPrice buyPrice : Option ℚ) : ℚ :=
  match sellPrice, buyPrice with
  | some sell, some buy =>
    if sell ≤ 0 ∨ buy ≤ 0 then -100
    else
      let sellFee := sell * (1/1000)
      let buyFee := buy * (1/1000)
      let sellAfterFee := sell - sellFee
      let buyAfterFee := buy + buyFee
      (sellAfterFee / buyAfterFee - 1) * 100
  | _, _ => -100

/-- An arbitrage opportunity record as built by the scanner (the
scan-and-return variant builds exactly these six fields). -/
structure Opportunity where
  pair : String
  buyExchange : String
  sellExchange : String
  buyPrice : ℚ
  sellPrice : ℚ
  spread : ℚ
  deriving DecidableEq

/-- The configuration surface the engine reads. -/
structure Config where
  minSpreadPercentage : ℚ
  orderSizeUSD : ℚ
  paperTrading : Bool
  tradingPairs : List String
  deriving DecidableEq

/-- The double loop over exchange indices i < j: all ordered combinations of
two distinct positions in the venue list. -/
def venueCombos : List String → List (String × String)
  | [] => []
  | e :: rest => (rest.map fun e2 => (e, e2)) ++ venueCombos rest

/-- The body of the scanner's inner loop for one pair and one venue
combination (exchange1, exchange2): skip when either book is absent, read the
four best prices, skip when any is null, compute both directed spreads and
emit an opportunity for each direction whose spread reaches the configured
minimum. -/
def checkPairCombo (minSpread : ℚ) (orderbooks : OrderBookStore)
    (pair e1 e2 : String) : List Opportunity :=
  match lookupKey pair orderbooks with
  | none => []
  | some books =>
    if (lookupKey e1 books).isSome ∧ (lookupKey e2 books).isSome then
      match getBestPrice orderbooks pair e1 PriceType.bid,
            getBestPrice orderbooks pair e2 PriceType.ask,
            getBestPrice orderbooks pair e2 PriceType.bid,
            getBestPrice orderbooks pair e1 PriceType.ask with
      | some bid1, some ask2, some bid2, some ask1 =>
        let spread1 := calculateSpread (some bid1) (some ask2)
        let spread2 := calculateSpread (some bid2) (some ask1)
        (if spread1 ≥ minSpread then
          [⟨pair, e2, e1, ask2, bid1, spread1⟩] else []) ++
        (if spread2 ≥ minSpread then
          [⟨pair, e1, e2, ask1, bid2, spread2⟩] else [])
      | _, _, _, _ => []
    else []

/-- checkArbitrageOpportunities (comparison phase): after the update phase has
refreshed the store (external I/O, represented by the store argument), require
at least two venues, then for each configured pair with data compare every
venue combination and collect the emitted opportunities. -/
def checkArbitrageOpportunities (cfg : Config) (exchanges : List String)
    (orderbooks : OrderBookStore) : List Opportunity :=
  if exchanges.length < 2 then []
  else
    cfg.tradingPairs.flatMap fun pair =>
      match lookupKey pair orderbooks with
      | none => []
      | some _ =>
        (venueCombos exchanges).flatMap fun ec =>
          checkPairCombo cfg.minSpreadPercentage orderbooks pair ec.1 ec.2

/-- The performance ledger this.performance (balances, tracked separately by
updateBalances, are not part of the counters the claims concern). -/
structure Performance where
  totalTrades : ℕ
  successfulTrades : ℕ
  failedTrades : ℕ
  totalProfit : ℚ
  deriving DecidableEq

/-- The result a venue connector reports for a market order:
{ success, executedQty, price }. -/
structure OrderResult where
  success : Bool
  executedQty : ℚ
  price : ℚ
  deriving DecidableEq

/-- The JavaScript-visible return value of executeArbitrage when the modelled
connectors report results rather than throw: noResult is a bare return
(undefined), success carries the recorded profit. -/
inductive ExecResult where
  | noResult
  | success (profit : ℚ)
  deriving DecidableEq

/-- A market order placed on a venue, recorded in the order of the calls the
code makes (paper trading places none). -/
inductive Action where
  | marketBuy (exchange : String)
  | marketSell (exchange : String)
  deriving DecidableEq

/-- simulateArbitrage(opportunity): paper trading; computes the base amount
purchasable with the configured order size at buyPrice, the gross profit from
selling that amount at sellPrice, deducts the 0.1% fee on both legs, and
increments totalTrades and successfulTrades while adding the net profit. -/
def simulateArbitrage (cfg : Config) (perf : Performance) (opp : Opportunity) :
    Performance × ExecResult :=
  let orderSize := cfg.orderSizeUSD
  let baseAssetAmount := orderSize / opp.buyPrice
  let buyTotal := orderSize
  let sellTotal := baseAssetAmount * opp.sellPrice
  let profit := sellTotal - buyTotal
  let buyFee := buyTotal * (1/1000)
  let sellFee := sellTotal * (1/1000)
  let netProfit := profit - buyFee - sellFee
  ({ perf with
      totalTrades := perf.totalTrades + 1
      successfulTrades := perf.successfulTrades + 1
      totalProfit := perf.totalProfit + netProfit },
   ExecResult.success netProfit)

/-- executeArbitrage(opportunity): bare return when the engine is not running
or when the spread recorded in the opportunity is below the configured
minimum; paper trading delegates to simulateArbitrage; live mode requires both
connectors to be present, places the buy, records a failed trade and returns
on buy failure (no sell is attempted), otherwise places the sell, records a
failed trade and returns on sell failure, and on full success records the
profit (executed sell notional minus executed buy notional) together with one
totalTrades and one successfulTrades increment.  The connectors are modelled
by the reported order results; exchanges lists the connector names. -/
def executeArbitrage (cfg : Config) (running : Bool) (exchanges : List String)
    (perf : Performance) (opp : Opportunity)
    (buyOrder sellOrder : OrderResult) :
    Performance × ExecResult × List Action :=
  if running = false then (perf, ExecResult.noResult, [])
  else if opp.spread < cfg.minSpreadPercentage then
    (perf, ExecResult.noResult, [])
  else if cfg.paperTrading then
    ((simulateArbitrage cfg perf opp).1, (simulateArbitrage cfg perf opp).2, [])
  else if ¬ (opp.buyExchange ∈ exchanges ∧ opp.sellExchange ∈ exchanges) then
    (perf, ExecResult.noResult, [])
  else if buyOrder.success = false then
    ({ perf with failedTrades := perf.failedTrades + 1 },
     ExecResult.noResult, [Action.marketBuy opp.buyExchange])
  else if sellOrder.success = false then
    ({ perf with failedTrades := perf.failedTrades + 1 },
     ExecResult.noResult,
     [Action.marketBuy opp.buyExchange, Action.marketSell opp.sellExchange])
  else
    let buyTotal := buyOrder.executedQty * buyOrder.price
    let sellTotal := sellOrder.executedQty * sellOrder.price
    let profit := sellTotal - buyTotal
    ({ perf with
        totalTrades := perf.totalTrades + 1
        successfulTrades := perf.successfulTrades + 1
        totalProfit := perf.totalProfit + profit },
     ExecResult.success profit,
     [Action.marketBuy opp.buyExchange, Action.marketSell opp.sellExchange])

/-- Severity of a log line emitted by the lifecycle methods. -/
inductive LogLevel where
  | debug
  | info
  | warn
  | error
  deriving DecidableEq

/-- The engine state the lifecycle methods touch: the running flag, the
monitoring interval handle, the ledger and the order-book store. -/
structure EngineState where
  running : Bool
  intervalId : Option ℕ
  performance : Performance
  orderbooks : OrderBookStore
  deriving DecidableEq

/-- start(): warns and returns unchanged when already running; otherwise sets
running, performs connector initialisation (external calls whose outcome is
the argument ok), and on success installs the monitoring interval; a thrown
initialisation error is caught and resets running to false.  The second
component lists the severities of the log lines emitted. -/
def start (st : EngineState) (ok : Bool) (tickId : ℕ) :
    EngineState × List LogLevel :=
  if st.running then (st, [LogLevel.warn])
  else if ok then
    ({ st with running := true, intervalId := some tickId },
     [LogLevel.info, LogLevel.info, LogLevel.info])
  else
    ({ st with running := false }, [LogLevel.info, LogLevel.error])

/-- stop(): warns and returns unchanged when not running; otherwise clears the
running flag and the monitoring interval and closes the websockets. -/
def stop (st : EngineState) : EngineState × List LogLevel :=
  if st.running = false then (st, [LogLevel.warn])
  else
    ({ st with running := false, intervalId := none },
     [LogLevel.info, LogLevel.info])

/-- Rewrite the observation timestamp of a stored order book, leaving the
price levels untouched (used to state that scanning never reads the stamp). -/
def retimeBook (f : ℤ → ℤ) (ob : OrderBook) : OrderBook :=
  { ob with timestamp := f ob.timestamp }

/-- Apply retimeBook to every book of the store. -/
def retimeStore (f : ℤ → ℤ) (st : OrderBookStore) : OrderBookStore :=
  st.map fun pb => (pb.1, pb.2.map fun eb => (eb.1, retimeBook f eb.2))

/-- A ledger with all counters at their initial value. -/
def perfZero : Performance := ⟨0, 0, 0, 0⟩

/-- A scanner configuration with minSpreadPercentage 0.5, paper trading on. -/
def cfgHalf : Config := ⟨1/2, 100, true, ["BTC/USDT"]⟩

/-- A live-mode configuration with the default minSpreadPercentage 0.8. -/
def liveCfg : Config := ⟨8/10, 100, false, ["BTC/USDT"]⟩

/-- Two fresh books whose cross spread computes to about 0.16% (best bid
10036 on Binance against best ask 10000 on Bitfinex) and whose reverse
direction is negative. -/
def lowSpreadStore : OrderBookStore :=
  [("BTC/USDT",
    [("Binance", ⟨[⟨10036, 1⟩], [⟨10050, 1⟩], 1000000⟩),
     ("Bitfinex", ⟨[⟨9990, 1⟩], [⟨10000, 1⟩], 1000000⟩)])]

/-- A fresh Binance book (stamp 1000000) and a stale Bitfinex book (stamp 0)
whose cross spread computes to about 2.02%; the reverse direction is
negative. -/
def staleMixStore : OrderBookStore :=
  [("BTC/USDT",
    [("Binance", ⟨[⟨10222, 1⟩], [⟨10300, 1⟩], 1000000⟩),
     ("Bitfinex", ⟨[⟨9000, 1⟩], [⟨10000, 1⟩], 0⟩)])]

/-- Current books for the stale-opportunity scenario: the freshly derived
spread of the buy-on-Bitfinex, sell-on-Binance direction is about -0.033%,
far below the 0.8% minimum. -/
def currentStore : OrderBookStore :=
  [("BTC/USDT",
    [("Binance", ⟨[⟨30150.5, 1⟩], [⟨30155.8, 1⟩], 1000000⟩),
     ("Bitfinex", ⟨[⟨30140.2, 1⟩], [⟨30100.2, 1⟩], 1000000⟩)])]

/-- An opportunity record whose stored spread field (2%) no longer matches
the current books of currentStore. -/
def liveOpp : Opportunity :=
  ⟨"BTC/USDT", "Bitfinex", "Binance", 30100.2, 30150.5, 2⟩

/-- A successful buy-order report: 100 USDT bought 1/301 BTC at 30100.2. -/
def buyOk : OrderResult := ⟨true, 1/301, 30100.2⟩

/-- A successful sell-order report for the bought quantity. -/
def sellOk : OrderResult := ⟨true, 1/301, 30150.5⟩

/-- A failed order report. -/
def orderFail : OrderResult := ⟨false, 0, 0⟩

/-- On positive prices the spread unfolds to the closed fee-adjusted form. -/
lemma calculateSpread_pos_eq (s b : ℚ) (hs : 0 < s) (hb : 0 < b) :
    calculateSpread (some s) (some b) =
      (s * (999/1000) / (b * (1001/1000)) - 1) * 100 := by
  have hcond : ¬ (s ≤ 0 ∨ b ≤ 0) := by
    push_neg
    exact ⟨hs, hb⟩
  have e1 : s - s * (1/1000) = s * (999/1000) := by ring
  have e2 : b + b * (1/1000) = b * (1001/1000) := by ring
  simp only [calculateSpread]
  rw [if_neg hcond, e1, e2]

/-- C4.  The claim gives the right formula but the wrong value of the test
vector: at sellPrice = 30150.5 and buyPrice = 30100.2 the fee-adjusted spread
is negative (about -0.033%), not approximately +0.05%. -/
theorem calculateSpread_testVector_counterexample :
    calculateSpread (some 30150.5) (some 30100.2) = -(1658450/50217167) ∧
    calculateSpread (some 30150.5) (some 30100.2) < 0 := by
  constructor <;> norm_num [calculateSpread]

/-- C4 (amended).  For positive prices calculateSpread equals
((sellPrice (1 - feeRate)) / (buyPrice (1 + feeRate)) - 1) 100 with
feeRate = 0.001 in exact arithmetic, and on the test vector
sellPrice = 30150.5, buyPrice = 30100.2 the result is -1658450/50217167,
within 1/10000 of -0.033 (percent). -/
theorem calculateSpread_formula (s b : ℚ) (hs : 0 < s) (hb : 0 < b) :
    calculateSpread (some s) (some b) =
      (s * (1 - 1/1000) / (b * (1 + 1/1000)) - 1) * 100 ∧
    calculateSpread (some 30150.5) (some 30100.2) = -(1658450/50217167) ∧
    |(-(1658450/50217167) : ℚ) - (-(33/1000))| < 1/10000 := by
  refine ⟨?_, by norm_num [calculateSpread], by rw [abs_lt]; constructor <;> norm_num⟩
  rw [calculateSpread_pos_eq s b hs hb]
  norm_num

/-- C4 witness: the amended formula evaluated at a concrete positive pair. -/
theorem calculateSpread_formula_witness :
    calculateSpread (some 2) (some 1) =
      ((2 : ℚ) * (1 - 1/1000) / (1 * (1 + 1/1000)) - 1) * 100 :=
  (calculateSpread_formula 2 1 (by norm_num) (by norm_num)).1

/-- C5.  For every input whose sell price or buy price is null, zero or
negative, calculateSpread returns the sentinel -100 (the function is total,
so no exception is possible). -/
theorem calculateSpread_sentinel (sellPrice buyPrice : Option ℚ)
    (h : sellPrice = none ∨ (∃ v, sellPrice = some v ∧ v ≤ 0) ∨
         buyPrice = none ∨ (∃ v, buyPrice = some v ∧ v ≤ 0)) :
    calculateSpread sellPrice buyPrice = -100 := by
  rcases h with h | ⟨v, hv, hv0⟩ | h | ⟨v, hv, hv0⟩
  · subst h
    cases buyPrice <;> rfl
  · subst hv
    cases buyPrice with
    | none => rfl
    | some b =>
      simp only [calculateSpread]
      rw [if_pos (Or.inl hv0)]
  · subst h
    cases sellPrice <;> rfl
  · subst hv
    cases sellPrice with
    | none => rfl
    | some s =>
      simp only [calculateSpread]
      rw [if_pos (Or.inr hv0)]

/-- C5 witness: a negative sell price yields the sentinel. -/
theorem calculateSpread_sentinel_witness :
    calculateSpread (some (-5)) (some 30100.2) = -100 :=
  calculateSpread_sentinel _ _
    (Or.inr (Or.inl ⟨-5, rfl, by norm_num⟩))

/-- C6.  For positive prices the spread is monotone: raising the sell price
with the buy price fixed never lowers it, and raising the buy price with the
sell price fixed never raises it (determinism is immediate: the calculator is
a pure function of its two arguments). -/
theorem calculateSpread_monotone (s s' b b' : ℚ) (hs : 0 < s) (hs' : 0 < s')
    (hb : 0 < b) (hb' : 0 < b') :
    (s ≤ s' →
      calculateSpread (some s) (some b) ≤ calculateSpread (some s') (some b)) ∧
    (b ≤ b' →
      calculateSpread (some s) (some b') ≤ calculateSpread (some s) (some b)) := by
  constructor
  · intro hss
    rw [calculateSpread_pos_eq s b hs hb, calculateSpread_pos_eq s' b hs' hb]
    have hden : (0 : ℚ) < b * (1001/1000) := by positivity
    gcongr
  · intro hbb
    rw [calculateSpread_pos_eq s b' hs hb', calculateSpread_pos_eq s b hs hb]
    have hnum : (0 : ℚ) ≤ s * (999/1000) := by positivity
    have hden : (0 : ℚ) < b * (1001/1000) := by positivity
    gcongr

/-- C6 witness: monotonicity instantiated on a concrete quadruple. -/
theorem calculateSpread_monotone_witness :
    calculateSpread (some 10036) (some 10000) ≤
      calculateSpread (some 10222) (some 10000) :=
  (calculateSpread_monotone 10036 10222 10000 10000 (by norm_num) (by norm_num)
      (by norm_num) (by norm_num)).1 (by norm_num)

/-- C7.  Whenever a venue combination has books and all four best prices, the
scanner emits the direction buy-on-e2, sell-on-e1 exactly when its computed
spread reaches the minimum, and symmetrically for the reverse direction;
concretely, at minSpreadPercentage 0.5 the 0.16% book configuration produces
no opportunity and the 2.02% configuration produces exactly one. -/
theorem scanner_emits_iff :
    (∀ (minSpread : ℚ) (store : OrderBookStore) (pair e1 e2 : String)
        (bid1 ask2 bid2 ask1 : ℚ),
      e1 ≠ e2 →
      getBestPrice store pair e1 PriceType.bid = some bid1 →
      getBestPrice store pair e2 PriceType.ask = some ask2 →
      getBestPrice store pair e2 PriceType.bid = some bid2 →
      getBestPrice store pair e1 PriceType.ask = some ask1 →
      ((∃ o ∈ checkPairCombo minSpread store pair e1 e2,
          o.buyExchange = e2 ∧ o.sellExchange = e1) ↔
        calculateSpread (some bid1) (some ask2) ≥ minSpread) ∧
      ((∃ o ∈ checkPairCombo minSpread store pair e1 e2,
          o.buyExchange = e1 ∧ o.sellExchange = e2) ↔
        calculateSpread (some bid2) (some ask1) ≥ minSpread)) ∧
    checkArbitrageOpportunities cfgHalf ["Binance", "Bitfinex"] lowSpreadStore = [] ∧
    (checkArbitrageOpportunities cfgHalf ["Binance", "Bitfinex"] staleMixStore).length = 1 := by
  refine ⟨?_, ?_, ?_⟩
  · intro minSpread store pair e1 e2 bid1 ask2 bid2 ask1 hne h1 h2 h3 h4
    obtain ⟨books, hp⟩ : ∃ books, lookupKey pair store = some books := by
      cases h : lookupKey pair store with
      | none =>
        simp only [getBestPrice, h] at h1
        exact Option.noConfusion h1
      | some books => exact ⟨books, rfl⟩
    have hs1 : (lookupKey e1 books).isSome = true := by
      simp only [getBestPrice, hp] at h1
      cases h : lookupKey e1 books with
      | none => simp [h] at h1
      | some ob => simp [h]
    have hs2 : (lookupKey e2 books).isSome = true := by
      simp only [getBestPrice, hp] at h2
      cases h : lookupKey e2 books with
      | none => simp [h] at h2
      | some ob => simp [h]
    simp only [checkPairCombo, hp, hs1, hs2, and_self, if_true, h1, h2, h3, h4]
    by_cases hc1 : calculateSpread (some bid1) (some ask2) ≥ minSpread <;>
      by_cases hc2 : calculateSpread (some bid2) (some ask1) ≥ minSpread <;>
        simp [hc1, hc2, hne, Ne.symm hne]
  · simp [checkArbitrageOpportunities, cfgHalf, lowSpreadStore, checkPairCombo, venueCombos,
      lookupKey, getBestPrice, priceOrNull, calculateSpread]
    norm_num
  · simp [checkArbitrageOpportunities, cfgHalf, staleMixStore, checkPairCombo, venueCombos,
      lookupKey, getBestPrice, priceOrNull, calculateSpread]
    norm_num

/-- C7 witness: the emission criterion applied to the 0.16% book pair. -/
theorem scanner_emits_iff_witness :
    (∃ o ∈ checkPairCombo (1/2) lowSpreadStore "BTC/USDT" "Binance" "Bitfinex",
        o.buyExchange = "Bitfinex" ∧ o.sellExchange = "Binance") ↔
      calculateSpread (some 10036) (some 10000) ≥ (1/2 : ℚ) :=
  (scanner_emits_iff.1 (1/2) lowSpreadStore "BTC/USDT" "Binance" "Bitfinex"
      10036 10000 9990 10050 (by simp)
      (by simp [getBestPrice, lowSpreadStore, lookupKey, priceOrNull])
      (by simp [getBestPrice, lowSpreadStore, lookupKey, priceOrNull])
      (by simp [getBestPrice, lowSpreadStore, lookupKey, priceOrNull])
      (by simp [getBestPrice, lowSpreadStore, lookupKey, priceOrNull])).1

/-- Looking a key up after mapping the values maps the result. -/
lemma lookupKey_map {β γ : Type} (g : β → γ) (k : String) :
    ∀ l : List (String × β),
      lookupKey k (l.map fun p => (p.1, g p.2)) = (lookupKey k l).map g
  | [] => rfl
  | (k', v) :: rest => by
    by_cases h : k = k'
    · simp [lookupKey, h]
    · simp [lookupKey, h, lookupKey_map g k rest]

/-- Best-price reads never see the timestamp. -/
lemma getBestPrice_retime (f : ℤ → ℤ) (store : OrderBookStore)
    (pair e : String) (ty : PriceType) :
    getBestPrice (retimeStore f store) pair e ty = getBestPrice store pair e ty := by
  simp only [getBestPrice, retimeStore]
  rw [lookupKey_map]
  cases lookupKey pair store with
  | none => rfl
  | some books =>
    simp only [Option.map_some']
    rw [lookupKey_map]
    cases lookupKey e books with
    | none => rfl
    | some ob => cases ty <;> simp [retimeBook]

/-- The per-combination scan never sees the timestamp. -/
lemma checkPairCombo_retime (f : ℤ → ℤ) (m : ℚ) (store : OrderBookStore)
    (pair e1 e2 : String) :
    checkPairCombo m (retimeStore f store) pair e1 e2 =
      checkPairCombo m store pair e1 e2 := by
  simp only [checkPairCombo, getBestPrice_retime]
  have hl : lookupKey pair (retimeStore f store) =
      (lookupKey pair store).map fun books =>
        books.map fun eb => (eb.1, retimeBook f eb.2) := by
    simp only [retimeStore]
    rw [lookupKey_map]
  rw [hl]
  cases lookupKey pair store with
  | none => rfl
  | some books =>
    simp only [Option.map_some']
    rw [lookupKey_map, lookupKey_map]
    simp only [Option.isSome_map']

/-- C2 (amended).  The scanner does not read order-book timestamps at all:
its output is invariant under every rewriting of the stored stamps, so a
stale book participates in scanning exactly like a fresh one (no freshness
window exists in the configuration). -/
theorem scan_timestamp_invariant (f : ℤ → ℤ) (cfg : Config)
    (exchanges : List String) (store : OrderBookStore) :
    checkArbitrageOpportunities cfg exchanges (retimeStore f store) =
      checkArbitrageOpportunities cfg exchanges store := by
  unfold checkArbitrageOpportunities
  split
  · rfl
  · refine congrArg _ (funext fun pair => ?_)
    have hl : lookupKey pair (retimeStore f store) =
        (lookupKey pair store).map fun books =>
          books.map fun eb => (eb.1, retimeBook f eb.2) := by
      simp only [retimeStore]
      rw [lookupKey_map]
    rw [hl]
    cases lookupKey pair store with
    | none => rfl
    | some books =>
      simp only [Option.map_some']
      exact congrArg _ (funext fun ec => checkPairCombo_retime f _ store pair ec.1 ec.2)

/-- C2 counterexample.  With a freshness window of 5000 ms at clock time
1000000, the stored Bitfinex book (stamp 0) is stale while the Binance book
(stamp 1000000) is fresh, yet scanning the pair emits one opportunity, not
zero: the stale book is not excluded. -/
theorem scan_keeps_stale_books_counterexample :
    ((lookupKey "BTC/USDT" staleMixStore).bind (lookupKey "Bitfinex")).map
        OrderBook.timestamp = some 0 ∧
    ((lookupKey "BTC/USDT" staleMixStore).bind (lookupKey "Binance")).map
        OrderBook.timestamp = some 1000000 ∧
    ((0 : ℤ) < 1000000 - 5000) ∧
    (checkArbitrageOpportunities cfgHalf ["Binance", "Bitfinex"]
        staleMixStore).length = 1 := by
  refine ⟨by simp [staleMixStore, lookupKey], by simp [staleMixStore, lookupKey],
    by norm_num, ?_⟩
  simp [checkArbitrageOpportunities, cfgHalf, staleMixStore, checkPairCombo, venueCombos,
    lookupKey, getBestPrice, priceOrNull, calculateSpread]
  norm_num

/-- C8.  In live mode, when the recorded spread passes the re-check, both
connectors exist and the buy order fails, execution records exactly one more
failed trade, returns without a result and places no order after the buy:
the action trace is the single buy attempt. -/
theorem buy_failure_no_sell (cfg : Config) (exchanges : List String)
    (perf : Performance) (opp : Opportunity) (buyO sellO : OrderResult)
    (hpaper : cfg.paperTrading = false)
    (hspread : opp.spread ≥ cfg.minSpreadPercentage)
    (hbuy : opp.buyExchange ∈ exchanges) (hsell : opp.sellExchange ∈ exchanges)
    (hfail : buyO.success = false) :
    executeArbitrage cfg true exchanges perf opp buyO sellO =
      ({ perf with failedTrades := perf.failedTrades + 1 },
       ExecResult.noResult, [Action.marketBuy opp.buyExchange]) := by
  simp [executeArbitrage, hpaper, hfail, not_lt.mpr hspread, hbuy, hsell]

/-- C8 witness: a concrete failed buy leg. -/
theorem buy_failure_no_sell_witness :
    executeArbitrage liveCfg true ["Binance", "Bitfinex"] perfZero liveOpp
        orderFail sellOk =
      ({ perfZero with failedTrades := 1 },
       ExecResult.noResult, [Action.marketBuy "Bitfinex"]) := by
  have h := buy_failure_no_sell liveCfg ["Binance", "Bitfinex"] perfZero liveOpp
    orderFail sellOk rfl (by norm_num [liveCfg, liveOpp]) (by simp [liveOpp])
    (by simp [liveOpp]) rfl
  simpa [liveOpp, perfZero] using h

/-- C1.  The stale-opportunity defect: the current books of currentStore put
the freshly derived spread of the buy-on-Bitfinex, sell-on-Binance direction
below the 0.8% minimum, yet executeArbitrage, which re-checks only the spread
field stored inside the opportunity record (2%), proceeds to place both live
orders and records a completed trade. -/
theorem executeArbitrage_skips_revalidation :
    calculateSpread (getBestPrice currentStore "BTC/USDT" "Binance" PriceType.bid)
        (getBestPrice currentStore "BTC/USDT" "Bitfinex" PriceType.ask) <
      liveCfg.minSpreadPercentage ∧
    liveOpp.spread ≥ liveCfg.minSpreadPercentage ∧
    (executeArbitrage liveCfg true ["Binance", "Bitfinex"] perfZero liveOpp
        buyOk sellOk).2.2 =
      [Action.marketBuy "Bitfinex", Action.marketSell "Binance"] ∧
    (executeArbitrage liveCfg true ["Binance", "Bitfinex"] perfZero liveOpp
        buyOk sellOk).1.totalTrades = 1 := by
  refine ⟨?_, by norm_num [liveOpp, liveCfg], ?_, ?_⟩
  · simp [currentStore, getBestPrice, lookupKey, priceOrNull, liveCfg]
    norm_num [calculateSpread]
  · simp [executeArbitrage, liveCfg, liveOpp, buyOk, sellOk]
    norm_num
  · simp [executeArbitrage, liveCfg, liveOpp, buyOk, sellOk, perfZero]
    norm_num

/-- C3.  When the buy leg succeeds and the sell leg fails, executeArbitrage
increments failedTrades by exactly 1 and adds no profit, but it returns the
same bare no-result value (undefined) as a buy-leg failure does: nothing in
the return value distinguishes the open-position state. -/
theorem sell_failure_returns_nothing :
    executeArbitrage liveCfg true ["Binance", "Bitfinex"] perfZero liveOpp
        buyOk orderFail =
      (⟨0, 0, 1, 0⟩, ExecResult.noResult,
       [Action.marketBuy "Bitfinex", Action.marketSell "Binance"]) ∧
    (executeArbitrage liveCfg true ["Binance", "Bitfinex"] perfZero liveOpp
        orderFail sellOk).2.1 =
      ExecResult.noResult := by
  constructor
  · simp [executeArbitrage, liveCfg, liveOpp, buyOk, orderFail, perfZero]
    norm_num
  · simp [executeArbitrage, liveCfg, liveOpp, orderFail, sellOk, perfZero]
    norm_num

/-- C10.  Every execution path preserves totalTrades = successfulTrades: the
two counters move only together (with failedTrades untouched), every
failure path moves failedTrades alone, simulated execution always moves both
counters together, and after a single failed live attempt from a zero ledger
totalTrades differs from successfulTrades + failedTrades. -/
theorem ledger_invariant :
    (∀ (cfg : Config) (running : Bool) (exchanges : List String)
        (perf : Performance) (opp : Opportunity) (buyO sellO : OrderResult)
        (perf2 : Performance) (res : ExecResult) (tr : List Action),
      executeArbitrage cfg running exchanges perf opp buyO sellO = (perf2, res, tr) →
      (perf.totalTrades = perf.successfulTrades →
        perf2.totalTrades = perf2.successfulTrades) ∧
      ((perf2.totalTrades = perf.totalTrades ∧
          perf2.successfulTrades = perf.successfulTrades) ∨
        (perf2.totalTrades = perf.totalTrades + 1 ∧
          perf2.successfulTrades = perf.successfulTrades + 1 ∧
          perf2.failedTrades = perf.failedTrades)) ∧
      (perf2.failedTrades = perf.failedTrades + 1 →
        perf2.totalTrades = perf.totalTrades ∧
        perf2.successfulTrades = perf.successfulTrades)) ∧
    (∀ (cfg : Config) (perf : Performance) (opp : Opportunity),
      (simulateArbitrage cfg perf opp).1.totalTrades = perf.totalTrades + 1 ∧
      (simulateArbitrage cfg perf opp).1.successfulTrades =
        perf.successfulTrades + 1 ∧
      (simulateArbitrage cfg perf opp).1.failedTrades = perf.failedTrades) ∧
    (executeArbitrage liveCfg true ["Binance", "Bitfinex"] perfZero liveOpp
        orderFail sellOk).1.totalTrades ≠
      (executeArbitrage liveCfg true ["Binance", "Bitfinex"] perfZero liveOpp
          orderFail sellOk).1.successfulTrades +
        (executeArbitrage liveCfg true ["Binance", "Bitfinex"] perfZero liveOpp
            orderFail sellOk).1.failedTrades := by
  refine ⟨?_, ?_, ?_⟩
  · intro cfg running exchanges perf opp buyO sellO perf2 res tr h
    unfold executeArbitrage at h
    split_ifs at h <;>
      simp only [simulateArbitrage, Prod.mk.injEq] at h <;>
        obtain ⟨h1, -, -⟩ := h <;> subst h1 <;> simp
  · intro cfg perf opp
    simp [simulateArbitrage]
  · simp [executeArbitrage, liveCfg, liveOpp, orderFail, sellOk, perfZero]
    norm_num

/-- C10 witness: invariant propagation on a concrete successful live trade. -/
theorem ledger_invariant_witness :
    (executeArbitrage liveCfg true ["Binance", "Bitfinex"] perfZero liveOpp
        buyOk sellOk).1.totalTrades =
      (executeArbitrage liveCfg true ["Binance", "Bitfinex"] perfZero liveOpp
          buyOk sellOk).1.successfulTrades := by
  have h := (ledger_invariant.1 liveCfg true ["Binance", "Bitfinex"] perfZero
    liveOpp buyOk sellOk _ _ _ rfl).1
  exact h rfl

/-- C9.  Calling start on a running engine, or stop on a stopped one, leaves
the whole engine state (running flag, interval, ledger, order books)
unchanged and emits exactly one warning-level log line; being total, neither
raises. -/
theorem lifecycle_noop (st : EngineState) :
    (∀ (ok : Bool) (tickId : ℕ), st.running = true →
      start st ok tickId = (st, [LogLevel.warn])) ∧
    (st.running = false → stop st = (st, [LogLevel.warn])) := by
  constructor
  · intro ok tickId h
    simp [start, h]
  · intro h
    simp [stop, h]

/-- C9 witness: stop on a concrete stopped engine is a warning no-op. -/
theorem lifecycle_noop_witness :
    stop ⟨false, none, perfZero, []⟩ =
      (⟨false, none, perfZero, []⟩, [LogLevel.warn]) :=
  (lifecycle_noop ⟨false, none, perfZero, []⟩).2 rfl

end ArbitrageBot
